import Mathlib

/-!
Shallow embedding of the WinHTTP WebSocket transport
(`sdk/core/azure-core/src/http/winhttp/win_http_websockets.cpp`) and proofs
about its send, receive and close paths.

Machine integers (DWORD, uint16_t) are modelled as `Nat`; byte buffers as
`List Nat`; C++ exceptions as an `Except` error channel.  Each transport
method is embedded as a pure function that also returns the list of
observable events (native WinHTTP calls and mutex operations) it performs,
so that statements such as "issues zero native calls" are expressible.
-/

namespace WinHttpWebSockets

/-! ## Native constants (from winhttp.h / winerror.h) -/

def ERROR_INSUFFICIENT_BUFFER : Nat := 122

def ERROR_WINHTTP_OPERATION_CANCELLED : Nat := 12017

def WINHTTP_WEB_SOCKET_MAX_CLOSE_REASON_LENGTH : Nat := 123

def WINHTTP_CALLBACK_STATUS_HANDLE_CLOSING : Nat := 0x00000800

def WINHTTP_CALLBACK_STATUS_READ_COMPLETE : Nat := 0x00080000

def WINHTTP_CALLBACK_STATUS_WRITE_COMPLETE : Nat := 0x00100000

def WINHTTP_CALLBACK_STATUS_CLOSE_COMPLETE : Nat := 0x02000000

def WINHTTP_WEB_SOCKET_BINARY_MESSAGE_BUFFER_TYPE : Nat := 0

def WINHTTP_WEB_SOCKET_BINARY_FRAGMENT_BUFFER_TYPE : Nat := 1

def WINHTTP_WEB_SOCKET_UTF8_MESSAGE_BUFFER_TYPE : Nat := 2

def WINHTTP_WEB_SOCKET_UTF8_FRAGMENT_BUFFER_TYPE : Nat := 3

def WINHTTP_WEB_SOCKET_CLOSE_BUFFER_TYPE : Nat := 4

/-! ## Data model -/

/-- Modelled from the spec: the `FrameType` tagged variant
(`NativeWebSocketFrameType`, declared in the transport header which is not
under `src/`).  The five members are those named by the spec and used by the
two `switch` statements in the source file. -/
inductive NativeWebSocketFrameType
  | Text
  | Binary
  | BinaryFragment
  | TextFragment
  | Closed
deriving DecidableEq

/-- Modelled from the spec: the numeric value of the underlying C++ enum,
used only inside the "Unknown frame type" message of `NativeSendFrame`
(`static_cast<uint32_t>(frameType)`).  The header declaring the enum is not
under `src/`; only distinctness of the values matters to any claim. -/
def frameTypeValue : NativeWebSocketFrameType → Nat
  | .Text => 0
  | .Binary => 1
  | .BinaryFragment => 2
  | .TextFragment => 3
  | .Closed => 4

/-- The error channel: `GetErrorAndThrow(message, code)` throws a transport
exception carrying the message and a native error code;
`throw std::runtime_error(message)` carries just a message;
`context.ThrowIfCancelled()` throws an operation-cancelled exception. -/
inductive TransportError
  | transportException (message : String) (code : Nat)
  | runtimeError (message : String)
  | operationCancelled
deriving DecidableEq

/-- Modelled from the spec: a cancellable `Azure::Core::Context`; only its
cancellation flag is observable to this file's code. -/
structure Context where
  cancelled : Bool
deriving DecidableEq

/-- Observable events of a transport call: native WinHTTP invocations (the
`handlePresent` flag records whether `m_socketHandle.get()` was non-null at
that call) and the send/receive mutex operations. -/
inductive Event
  | callWebSocketSend (handlePresent : Bool) (bufferType : Nat) (dataLength : Nat)
  | callWebSocketReceive (handlePresent : Bool) (bufferLength : Nat)
  | callWebSocketClose (handlePresent : Bool) (status : Nat) (reasonLength : Nat)
  | callWebSocketQueryCloseStatus (handlePresent : Bool)
  | callCloseHandle
  | acquireSendMutex
  | releaseSendMutex
  | acquireReceiveMutex
  | releaseReceiveMutex
deriving DecidableEq

def Event.isNativeCall : Event → Bool
  | .acquireSendMutex => false
  | .releaseSendMutex => false
  | .acquireReceiveMutex => false
  | .releaseReceiveMutex => false
  | _ => true

def Event.isQueryCloseStatus : Event → Bool
  | .callWebSocketQueryCloseStatus _ => true
  | _ => false

def Event.isCloseHandle : Event → Bool
  | .callCloseHandle => true
  | _ => false

/-- Modelled from the spec: the Completion Waiter (`_detail::WinHttpAction`,
declared in `win_http_request.hpp`, which is not under `src/`).  Per the
spec's external contract: `waitResolves st` is whether `WaitForAction(_, st,
ctx)` returns true (completion of status `st` observed) or false (cancelled
or failed); `stowedError st` is `GetStowedError(st)`; `statusBytesTransferred
st` and `statusBufferType st` are the `dwBytesTransferred` and `eBufferType`
fields of `GetWebSocketStatus(st)`. -/
structure WinHttpAction where
  waitResolves : Nat → Bool
  stowedError : Nat → Nat
  statusBytesTransferred : Nat → Nat
  statusBufferType : Nat → Nat

/-- Modelled from the spec: the results the native WinHTTP facility returns
to the calls this file issues.  `receiveBytes` are the bytes the facility
delivered into the 128-byte receive scratch buffer; `queryReasonBytes` the
bytes it wrote into the close-reason buffer; `queryReasonLength` the value it
stored through the `closeReasonLength` out-parameter (which the source never
reads); `receiveOutBufferType` the value left in the local `bufferType`
out-parameter of `WinHttpWebSocketReceive`. -/
structure NativeEnv where
  sendResult : Nat
  receiveResult : Nat
  receiveBytes : List Nat
  receiveOutBufferType : Nat
  closeResult : Nat
  queryResult : Nat
  queryCloseStatus : Nat
  queryReasonBytes : List Nat
  queryReasonLength : Nat
deriving DecidableEq

/-- The transport's state observable to this file: whether `m_socketHandle`
holds a (non-null) native handle. -/
structure WinHttpWebSocketTransport where
  m_socketHandle : Bool
deriving DecidableEq

/-- Field names as used at line 136 of the source: `CloseReason` is the
numeric close status (`closeStatus`, a `uint16_t`); `Reason` the reason
string bytes built by `std::string(closeReason)`. -/
structure NativeWebSocketCloseInformation where
  CloseReason : Nat
  Reason : List Nat
deriving DecidableEq

/-- Received frame: the frame type and the (trimmed) payload bytes. -/
structure NativeWebSocketReceiveInformation where
  frameType : NativeWebSocketFrameType
  frameData : List Nat
deriving DecidableEq

/-! ## Buffer helpers -/

/-- Writing `w` into the front of a fixed buffer `buf` (native out-buffer
semantics): at most `buf.length` bytes are stored, the rest of the buffer
keeps its previous contents.  The result always has `buf.length` bytes. -/
def writeInto (buf w : List Nat) : List Nat :=
  w.take buf.length ++ buf.drop (min w.length buf.length)

/-- `std::vector::resize n`: truncate to `n` elements, or pad with zero bytes
up to `n`. -/
def listResize (l : List Nat) (n : Nat) : List Nat :=
  if n ≤ l.length then l.take n else l ++ List.replicate (n - l.length) 0

/-- `std::string(closeReason)` on a `char` buffer: the bytes up to (not
including) the first zero byte. -/
def cStringOf (buf : List Nat) : List Nat :=
  buf.takeWhile (fun b => b ≠ 0)

/-! ## The transport operations (embedded from the source) -/

/-- The `switch (frameType)` of `NativeSendFrame` (lines 188-206): maps the
frame type to the native buffer kind; `none` is the `default:` branch. -/
def sendBufferType : NativeWebSocketFrameType → Option Nat
  | .Text => some WINHTTP_WEB_SOCKET_UTF8_MESSAGE_BUFFER_TYPE
  | .Binary => some WINHTTP_WEB_SOCKET_BINARY_MESSAGE_BUFFER_TYPE
  | .BinaryFragment => some WINHTTP_WEB_SOCKET_BINARY_FRAGMENT_BUFFER_TYPE
  | .TextFragment => some WINHTTP_WEB_SOCKET_UTF8_FRAGMENT_BUFFER_TYPE
  | .Closed => none

/-- The `switch` of `NativeReceiveFrame` (lines 267-287): maps the reported
native buffer kind to the frame type; `none` is the `default:` branch. -/
def receiveFrameType (k : Nat) : Option NativeWebSocketFrameType :=
  if k = WINHTTP_WEB_SOCKET_UTF8_MESSAGE_BUFFER_TYPE then some .Text
  else if k = WINHTTP_WEB_SOCKET_BINARY_MESSAGE_BUFFER_TYPE then some .Binary
  else if k = WINHTTP_WEB_SOCKET_BINARY_FRAGMENT_BUFFER_TYPE then some .BinaryFragment
  else if k = WINHTTP_WEB_SOCKET_UTF8_FRAGMENT_BUFFER_TYPE then some .TextFragment
  else if k = WINHTTP_WEB_SOCKET_CLOSE_BUFFER_TYPE then some .Closed
  else none

/-- `WinHttpWebSocketTransport::NativeSendFrame` (lines 182-231).
Unrecognized frame type: `throw std::runtime_error` before the lock is taken
and before any native call.  Otherwise: take `m_sendMutex`, issue
`WinHttpWebSocketSend` inside `WaitForAction` (a non-zero return throws),
wait for `WINHTTP_CALLBACK_STATUS_WRITE_COMPLETE`, and on a failed wait
throw with the stowed error for that status.  The `lock_guard` releases the
mutex on every exit path. -/
def NativeSendFrame (self : WinHttpWebSocketTransport) (action : WinHttpAction)
    (env : NativeEnv) (frameType : NativeWebSocketFrameType) (frameData : List Nat)
    (_context : Context) : Except TransportError Unit × List Event :=
  match sendBufferType frameType with
  | none =>
      (.error (.runtimeError ("Unknown frame type: " ++ toString (frameTypeValue frameType))),
        [])
  | some bufferType =>
      let issued : List Event :=
        [.acquireSendMutex,
         .callWebSocketSend self.m_socketHandle bufferType frameData.length]
      if env.sendResult ≠ 0 then
        (.error (.transportException "WinHttpWebSocketSend() failed" env.sendResult),
          issued ++ [.releaseSendMutex])
      else if action.waitResolves WINHTTP_CALLBACK_STATUS_WRITE_COMPLETE = false then
        (.error (.transportException "Error Sending WebSocket synchronously"
            (action.stowedError WINHTTP_CALLBACK_STATUS_WRITE_COMPLETE)),
          issued ++ [.releaseSendMutex])
      else
        (.ok (), issued ++ [.releaseSendMutex])

/-- `WinHttpWebSocketTransport::NativeReceiveFrame` (lines 233-289).
Take `m_receiveMutex`, issue `WinHttpWebSocketReceive` into a 128-byte
scratch buffer inside `WaitForAction` (a non-zero return other than
`ERROR_INSUFFICIENT_BUFFER` throws), wait for
`WINHTTP_CALLBACK_STATUS_READ_COMPLETE` (a failed wait throws with the
stowed error), then resize the buffer to the reported `dwBytesTransferred`
and map the reported `eBufferType`; the `default:` branch throws
`std::runtime_error` naming the local `bufferType` out-parameter. -/
def NativeReceiveFrame (self : WinHttpWebSocketTransport) (action : WinHttpAction)
    (env : NativeEnv) (_context : Context) :
    Except TransportError NativeWebSocketReceiveInformation × List Event :=
  let issued : List Event :=
    [.acquireReceiveMutex, .callWebSocketReceive self.m_socketHandle 128]
  if env.receiveResult ≠ 0 ∧ env.receiveResult ≠ ERROR_INSUFFICIENT_BUFFER then
    (.error (.transportException "WinHttpWebSocketReceive() failed" env.receiveResult),
      issued ++ [.releaseReceiveMutex])
  else if action.waitResolves WINHTTP_CALLBACK_STATUS_READ_COMPLETE = false then
    (.error (.transportException "Error Receiving WebSocket frame synchronously"
        (action.stowedError WINHTTP_CALLBACK_STATUS_READ_COMPLETE)),
      issued ++ [.releaseReceiveMutex])
  else
    let buffer :=
      listResize (writeInto (List.replicate 128 0) env.receiveBytes)
        (action.statusBytesTransferred WINHTTP_CALLBACK_STATUS_READ_COMPLETE)
    match receiveFrameType (action.statusBufferType WINHTTP_CALLBACK_STATUS_READ_COMPLETE) with
    | some frameTypeReceived =>
        (.ok ⟨frameTypeReceived, buffer⟩, issued ++ [.releaseReceiveMutex])
    | none =>
        (.error (.runtimeError ("Unknown frame type: " ++ toString env.receiveOutBufferType)),
          issued ++ [.releaseReceiveMutex])

/-- `WinHttpWebSocketTransport::NativeGetCloseSocketInformation`
(lines 152-171). `context.ThrowIfCancelled()` first; then one synchronous
`WinHttpWebSocketQueryCloseStatus` into a zero-initialized
`char closeReason[WINHTTP_WEB_SOCKET_MAX_CLOSE_REASON_LENGTH]` buffer; a
non-zero result throws; the reason string is `std::string(closeReason)` —
the `closeReasonLength` out-parameter is never read. -/
def NativeGetCloseSocketInformation (self : WinHttpWebSocketTransport)
    (env : NativeEnv) (context : Context) :
    Except TransportError NativeWebSocketCloseInformation × List Event :=
  if context.cancelled then
    (.error .operationCancelled, [])
  else
    let issued : List Event := [.callWebSocketQueryCloseStatus self.m_socketHandle]
    if env.queryResult ≠ 0 then
      (.error (.transportException "WinHttpWebSocketQueryCloseStatus() failed" env.queryResult),
        issued)
    else
      let closeReason :=
        writeInto (List.replicate WINHTTP_WEB_SOCKET_MAX_CLOSE_REASON_LENGTH 0)
          env.queryReasonBytes
      (.ok ⟨env.queryCloseStatus % 65536, cStringOf closeReason⟩, issued)

/-- `WinHttpWebSocketTransport::NativeCloseSocket` (lines 98-142).
Issue `WinHttpWebSocketClose` inside `WaitForAction` (a non-zero return
throws), wait for `WINHTTP_CALLBACK_STATUS_CLOSE_COMPLETE`; on a failed wait
a stowed error that is neither `0` nor `ERROR_WINHTTP_OPERATION_CANCELLED`
throws.  Then query the close information and throw a
"Close status mismatch" `std::runtime_error` naming got/expected if the
reported status differs from the status sent. -/
def NativeCloseSocket (self : WinHttpWebSocketTransport) (action : WinHttpAction)
    (env : NativeEnv) (status : Nat) (disconnectReason : List Nat)
    (context : Context) : Except TransportError Unit × List Event :=
  let issued : List Event :=
    [.callWebSocketClose self.m_socketHandle status disconnectReason.length]
  if env.closeResult ≠ 0 then
    (.error (.transportException "WinHttpWebSocketClose() failed" env.closeResult), issued)
  else if action.waitResolves WINHTTP_CALLBACK_STATUS_CLOSE_COMPLETE = false
      ∧ action.stowedError WINHTTP_CALLBACK_STATUS_CLOSE_COMPLETE ≠ 0
      ∧ action.stowedError WINHTTP_CALLBACK_STATUS_CLOSE_COMPLETE
          ≠ ERROR_WINHTTP_OPERATION_CANCELLED then
    (.error (.transportException "Error Closing WebSocket handle synchronously"
        (action.stowedError WINHTTP_CALLBACK_STATUS_CLOSE_COMPLETE)),
      issued)
  else
    match NativeGetCloseSocketInformation self env context with
    | (.error e, t) => (.error e, issued ++ t)
    | (.ok closeInformation, t) =>
        if closeInformation.CloseReason ≠ status then
          (.error (.runtimeError ("Close status mismatch, got "
              ++ toString closeInformation.CloseReason ++ " expected " ++ toString status)),
            issued ++ t)
        else
          (.ok (), issued ++ t)

/-! ## The locked send/receive round-trip as a transition system

`NativeSendFrame`'s critical section (lines 210-230) is: construct the
`std::lock_guard` on `m_sendMutex`; inside `WaitForAction`'s action invoke
the native send primitive `WinHttpWebSocketSend`; block until the matching
`WINHTTP_CALLBACK_STATUS_WRITE_COMPLETE` completion is observed; the
`lock_guard` destructor releases the mutex.  The critical section has two
abnormal exits that unwind through the `lock_guard` with no completion
observed: the throw after `WinHttpWebSocketSend` returned non-zero
(line 221), and the throw after a failed or cancelled `WaitForAction`
(lines 226-230) — and per the spec's Completion Waiter contract a false
wait return does not guarantee the native operation was aborted, so the
invoked operation may still be pending when the mutex frees.
`NativeReceiveFrame` (lines 241-262) has exactly the same shape with
`m_receiveMutex`, `WinHttpWebSocketReceive` and
`WINHTTP_CALLBACK_STATUS_READ_COMPLETE`, and the two mutexes are distinct
members, so each path is an independent instance of the one protocol
modelled here. -/

/-- The phase a caller thread is in while running the locked round-trip:
`idle` (not yet at the `lock_guard`), `locked` (mutex acquired, native call
not yet issued), `issued` (native primitive invoked, caller blocked in
`WaitForAction`, matching completion not observed), `completed` (completion
observed, mutex not yet released), `done` (mutex released, normally or by
unwinding). -/
inductive FramePhase
  | idle
  | locked
  | issued
  | completed
  | done
deriving DecidableEq

/-- Global state of one lock-protected path: who owns the mutex (if
anyone), the phase of each caller thread, and how many native invocations
have been issued whose matching completion has not been observed — an
abandoned (thrown/cancelled) wait leaves its invocation unobserved and
possibly still pending. -/
structure FrameLockState where
  owner : Option Nat
  phases : List FramePhase
  unobserved : Nat
deriving DecidableEq

/-- All callers idle, mutex free, nothing invoked. -/
def FrameLockState.init (n : Nat) : FrameLockState :=
  ⟨none, List.replicate n .idle, 0⟩

/-- One step of one caller thread `i` through `NativeSendFrame`'s (resp.
`NativeReceiveFrame`'s) critical section: `acquire` is the `std::lock_guard`
constructor (only possible while no thread holds the mutex); `issue` is the
native send (resp. receive) invocation inside `WaitForAction`'s action;
`complete` is `WaitForAction` observing the matching completion status;
`release` is the `lock_guard` destructor on the normal exit; `abort` is the
unwinding exit — the throw after the native call returned non-zero
(line 221 resp. 253) or after a failed/cancelled `WaitForAction` (lines
226-230 resp. 258-261) — in which the `lock_guard` destructor releases the
mutex although the matching completion was never observed, so the
invocation stays unobserved. -/
inductive FrameLockStep : FrameLockState → FrameLockState → Prop
  | acquire (s : FrameLockState) (i : Nat)
      (hp : s.phases.get? i = some .idle) (ho : s.owner = none) :
      FrameLockStep s ⟨some i, s.phases.set i .locked, s.unobserved⟩
  | issue (s : FrameLockState) (i : Nat)
      (hp : s.phases.get? i = some .locked) :
      FrameLockStep s ⟨s.owner, s.phases.set i .issued, s.unobserved + 1⟩
  | complete (s : FrameLockState) (i : Nat)
      (hp : s.phases.get? i = some .issued) :
      FrameLockStep s ⟨s.owner, s.phases.set i .completed, s.unobserved - 1⟩
  | release (s : FrameLockState) (i : Nat)
      (hp : s.phases.get? i = some .completed) (ho : s.owner = some i) :
      FrameLockStep s ⟨none, s.phases.set i .done, s.unobserved⟩
  | abort (s : FrameLockState) (i : Nat)
      (hp : s.phases.get? i = some .issued) (ho : s.owner = some i) :
      FrameLockStep s ⟨none, s.phases.set i .done, s.unobserved⟩

/-- The steps of `FrameLockStep` without `abort`: the executions in which
the native call never fails synchronously and every `WaitForAction`
resolves to its completion (no caller unwinds out of the critical
section). -/
inductive FrameLockNormalStep : FrameLockState → FrameLockState → Prop
  | acquire (s : FrameLockState) (i : Nat)
      (hp : s.phases.get? i = some .idle) (ho : s.owner = none) :
      FrameLockNormalStep s ⟨some i, s.phases.set i .locked, s.unobserved⟩
  | issue (s : FrameLockState) (i : Nat)
      (hp : s.phases.get? i = some .locked) :
      FrameLockNormalStep s ⟨s.owner, s.phases.set i .issued, s.unobserved + 1⟩
  | complete (s : FrameLockState) (i : Nat)
      (hp : s.phases.get? i = some .issued) :
      FrameLockNormalStep s ⟨s.owner, s.phases.set i .completed, s.unobserved - 1⟩
  | release (s : FrameLockState) (i : Nat)
      (hp : s.phases.get? i = some .completed) (ho : s.owner = some i) :
      FrameLockNormalStep s ⟨none, s.phases.set i .done, s.unobserved⟩

/-- Phases during which the source holds the mutex. -/
def FramePhase.holdsLock : FramePhase → Bool
  | .locked => true
  | .issued => true
  | .completed => true
  | _ => false

/-- Number of callers currently between invoking the native primitive and
observing (or abandoning) its completion — callers blocked inside
`WaitForAction`. -/
def inFlightCount (s : FrameLockState) : Nat :=
  s.phases.countP (fun p => decide (p = FramePhase.issued))

/-- The mutex-ownership invariant: any thread inside the critical section
owns the mutex. -/
def FrameLockInv (s : FrameLockState) : Prop :=
  ∀ i p, s.phases.get? i = some p → p.holdsLock = true → s.owner = some i

/-- In abort-free executions, the unobserved-invocation count equals the
number of callers still waiting. -/
def FrameLockCounts (s : FrameLockState) : Prop :=
  s.unobserved = s.phases.countP (fun p => decide (p = FramePhase.issued))

/-- `WinHttpWebSocketTransport::Close` (lines 69-85).  If `m_socketHandle`
is non-null, release it inside the `WaitForAction` for
`WINHTTP_CALLBACK_STATUS_HANDLE_CLOSING` (`m_socketHandle.reset()` performs
the one native `WinHttpCloseHandle`); otherwise do nothing.  The wait's
result is discarded and nothing is thrown from this path. -/
def Close (self : WinHttpWebSocketTransport) :
    WinHttpWebSocketTransport × List Event :=
  if self.m_socketHandle then
    (⟨false⟩, [.callCloseHandle])
  else
    (self, [])

/-! ## Sample environments for concrete evaluations -/

/-- A transport whose `m_socketHandle` is null (before `OnUpgradedConnection`
or after `Close`). -/
def closedTransport : WinHttpWebSocketTransport := ⟨false⟩

/-- A transport holding an upgraded socket handle. -/
def openTransport : WinHttpWebSocketTransport := ⟨true⟩

/-- A context that has not been cancelled. -/
def liveContext : Context := ⟨false⟩

/-- A waiter whose waits all resolve with no stowed errors and zeroed
metadata. -/
def okAction : WinHttpAction :=
  ⟨fun _ => true, fun _ => 0, fun _ => 0, fun _ => 0⟩

/-- A waiter whose waits fail with a fatal (non-cancellation) stowed
error 12002. -/
def fatalStowAction : WinHttpAction :=
  ⟨fun _ => false, fun _ => 12002, fun _ => 0, fun _ => 0⟩

/-- A waiter whose waits fail with the stowed error
`ERROR_WINHTTP_OPERATION_CANCELLED`. -/
def cancelStowAction : WinHttpAction :=
  ⟨fun _ => false, fun _ => ERROR_WINHTTP_OPERATION_CANCELLED, fun _ => 0, fun _ => 0⟩

/-- A native environment in which every native call succeeds and reports
zeros / empty buffers. -/
def okEnv : NativeEnv :=
  ⟨0, 0, [], 0, 0, 0, 0, [], 0⟩

/-- A waiter reporting a completed read of 5 bytes with the binary-message
buffer kind. -/
def truncAction : WinHttpAction :=
  ⟨fun _ => true, fun _ => 0, fun _ => 5, fun _ => WINHTTP_WEB_SOCKET_BINARY_MESSAGE_BUFFER_TYPE⟩

/-- A native environment delivering 7 bytes into the receive scratch
buffer. -/
def receiveEnv : NativeEnv :=
  { okEnv with receiveBytes := [9, 9, 9, 9, 9, 1, 2] }

/-- A native environment whose close-status query reports status 1000 and
reason bytes containing an embedded zero byte. -/
def echoEnv : NativeEnv :=
  { okEnv with queryCloseStatus := 1000, queryReasonBytes := [98, 121, 101, 0, 120] }

/-- A native environment whose close-status query reports status 1001. -/
def mismatchEnv : NativeEnv :=
  { okEnv with queryCloseStatus := 1001 }

/-! ## List helper lemmas -/

theorem get?_set_same {α : Type} (l : List α) (i : Nat) (a : α) (h : i < l.length) :
    (l.set i a).get? i = some a := by
  induction l generalizing i with
  | nil => simp at h
  | cons b t ih =>
      cases i with
      | zero => rfl
      | succ k => exact ih k (Nat.lt_of_succ_lt_succ h)

theorem get?_set_other {α : Type} (l : List α) (i j : Nat) (a : α) (h : i ≠ j) :
    (l.set i a).get? j = l.get? j := by
  induction l generalizing i j with
  | nil => rfl
  | cons b t ih =>
      cases i with
      | zero =>
          cases j with
          | zero => exact absurd rfl h
          | succ k => rfl
      | succ m =>
          cases j with
          | zero => rfl
          | succ k => exact ih m k (fun hh => h (by rw [hh]))

theorem lt_of_get?_eq_some {α : Type} {l : List α} {i : Nat} {a : α}
    (h : l.get? i = some a) : i < l.length := by
  induction l generalizing i with
  | nil => exact Option.noConfusion h
  | cons b t ih =>
      cases i with
      | zero => exact Nat.succ_pos _
      | succ k => exact Nat.succ_lt_succ (ih h)

theorem mem_of_get?_eq_some {α : Type} {l : List α} {i : Nat} {a : α}
    (h : l.get? i = some a) : a ∈ l := by
  induction l generalizing i with
  | nil => exact Option.noConfusion h
  | cons b t ih =>
      cases i with
      | zero =>
          injection h with hba
          rw [← hba]
          exact List.mem_cons_self b t
      | succ k => exact List.mem_cons_of_mem b (ih h)

theorem get?_of_mem_eq {α : Type} {l : List α} {a : α} (h : a ∈ l) :
    ∃ i, l.get? i = some a := by
  induction l with
  | nil => cases h
  | cons b t ih =>
      rcases List.mem_cons.mp h with hba | ht
      · exact ⟨0, by rw [hba]; exact rfl⟩
      · obtain ⟨k, hk⟩ := ih ht
        exact ⟨k + 1, hk⟩

theorem countP_issued_le_one (l : List FramePhase)
    (h : ∀ i j, l.get? i = some FramePhase.issued → l.get? j = some FramePhase.issued → i = j) :
    l.countP (fun p => decide (p = FramePhase.issued)) ≤ 1 := by
  induction l with
  | nil => simp
  | cons a t ih =>
      rw [List.countP_cons]
      by_cases ha : a = FramePhase.issued
      · have ht : t.countP (fun p => decide (p = FramePhase.issued)) = 0 := by
          rw [List.countP_eq_zero]
          intro b hb
          simp only [decide_eq_true_eq]
          intro hbi
          rw [hbi] at hb
          obtain ⟨k, hk⟩ := get?_of_mem_eq hb
          have h0 : (a :: t).get? 0 = some FramePhase.issued := by rw [ha]; exact rfl
          have hcontra := h 0 (k + 1) h0 hk
          exact Nat.succ_ne_zero k hcontra.symm
        rw [ht]
        simp [ha]
      · have hfalse : (decide (a = FramePhase.issued)) = false := decide_eq_false ha
        rw [hfalse]
        simp only [if_neg Bool.false_ne_true, Nat.add_zero]
        exact ih fun i j hi hj => Nat.succ_injective (h (i + 1) (j + 1) hi hj)

/-! ## The mutex-ownership invariant and mutual exclusion (C1) -/

theorem frameLockInv_init (n : Nat) : FrameLockInv (FrameLockState.init n) := by
  intro i p hp hl
  have hmem : p ∈ List.replicate n FramePhase.idle := mem_of_get?_eq_some hp
  rw [List.eq_of_mem_replicate hmem] at hl
  simp [FramePhase.holdsLock] at hl

theorem frameLockInv_step {s t : FrameLockState} (hinv : FrameLockInv s)
    (hstep : FrameLockStep s t) : FrameLockInv t := by
  cases hstep with
  | acquire i hp ho =>
      intro j p hj hl
      by_cases hij : i = j
      · subst hij
        rfl
      · rw [get?_set_other _ _ _ _ hij] at hj
        have hoj := hinv j p hj hl
        rw [ho] at hoj
        exact Option.noConfusion hoj
  | issue i hp =>
      intro j p hj hl
      by_cases hij : i = j
      · subst hij
        exact hinv i FramePhase.locked hp rfl
      · rw [get?_set_other _ _ _ _ hij] at hj
        exact hinv j p hj hl
  | complete i hp =>
      intro j p hj hl
      by_cases hij : i = j
      · subst hij
        exact hinv i FramePhase.issued hp rfl
      · rw [get?_set_other _ _ _ _ hij] at hj
        exact hinv j p hj hl
  | release i hp ho =>
      intro j p hj hl
      by_cases hij : i = j
      · subst hij
        rw [get?_set_same _ _ _ (lt_of_get?_eq_some hp)] at hj
        injection hj with hpd
        rw [← hpd] at hl
        simp [FramePhase.holdsLock] at hl
      · rw [get?_set_other _ _ _ _ hij] at hj
        have hoj := hinv j p hj hl
        rw [ho] at hoj
        injection hoj with hij2
        exact absurd hij2 hij
  | abort i hp ho =>
      intro j p hj hl
      by_cases hij : i = j
      · subst hij
        rw [get?_set_same _ _ _ (lt_of_get?_eq_some hp)] at hj
        injection hj with hpd
        rw [← hpd] at hl
        simp [FramePhase.holdsLock] at hl
      · rw [get?_set_other _ _ _ _ hij] at hj
        have hoj := hinv j p hj hl
        rw [ho] at hoj
        injection hoj with hij2
        exact absurd hij2 hij

theorem frameLockInv_reachable {n : Nat} {s : FrameLockState}
    (h : Relation.ReflTransGen FrameLockStep (FrameLockState.init n) s) :
    FrameLockInv s := by
  induction h with
  | refl => exact frameLockInv_init n
  | tail _ hbc ih => exact frameLockInv_step ih hbc

theorem frameLockNormalStep_toStep {s t : FrameLockState}
    (h : FrameLockNormalStep s t) : FrameLockStep s t := by
  cases h with
  | acquire i hp ho => exact FrameLockStep.acquire _ i hp ho
  | issue i hp => exact FrameLockStep.issue _ i hp
  | complete i hp => exact FrameLockStep.complete _ i hp
  | release i hp ho => exact FrameLockStep.release _ i hp ho

theorem frameLockNormal_reachable_toStep {a b : FrameLockState}
    (h : Relation.ReflTransGen FrameLockNormalStep a b) :
    Relation.ReflTransGen FrameLockStep a b := by
  induction h with
  | refl => exact Relation.ReflTransGen.refl
  | tail _ hbc ih => exact Relation.ReflTransGen.tail ih (frameLockNormalStep_toStep hbc)

theorem countP_set_balance {α : Type} (q : α → Bool) (l : List α) (i : Nat) (a b : α)
    (h : l.get? i = some a) :
    (l.set i b).countP q + (if q a then 1 else 0)
      = l.countP q + (if q b then 1 else 0) := by
  induction l generalizing i with
  | nil => exact Option.noConfusion h
  | cons c t ih =>
      cases i with
      | zero =>
          injection h with hca
          rw [← hca]
          show (b :: t).countP q + (if q c then 1 else 0)
            = (c :: t).countP q + (if q b then 1 else 0)
          rw [List.countP_cons, List.countP_cons]
          set B := (if q b then 1 else 0)
          set C := (if q c then 1 else 0)
          omega
      | succ k =>
          show (c :: t.set k b).countP q + (if q a then 1 else 0)
            = (c :: t).countP q + (if q b then 1 else 0)
          rw [List.countP_cons, List.countP_cons]
          have hik := ih k h
          set A := (if q a then 1 else 0)
          set B := (if q b then 1 else 0)
          set C := (if q c then 1 else 0)
          omega

theorem frameLockCounts_init (n : Nat) : FrameLockCounts (FrameLockState.init n) := by
  show 0 = (List.replicate n FramePhase.idle).countP _
  symm
  rw [List.countP_eq_zero]
  intro b hb
  rw [List.eq_of_mem_replicate hb]
  decide

theorem frameLockCounts_normal_step {s t : FrameLockState}
    (hcount : FrameLockCounts s) (hstep : FrameLockNormalStep s t) :
    FrameLockCounts t := by
  have hc : s.unobserved
      = s.phases.countP (fun p => decide (p = FramePhase.issued)) := hcount
  cases hstep with
  | acquire i hp ho =>
      have hb : (s.phases.set i FramePhase.locked).countP
            (fun p => decide (p = FramePhase.issued))
          = s.phases.countP (fun p => decide (p = FramePhase.issued)) :=
        countP_set_balance (fun p => decide (p = FramePhase.issued))
          s.phases i FramePhase.idle FramePhase.locked hp
      show s.unobserved
        = (s.phases.set i FramePhase.locked).countP (fun p => decide (p = FramePhase.issued))
      omega
  | issue i hp =>
      have hb : (s.phases.set i FramePhase.issued).countP
            (fun p => decide (p = FramePhase.issued))
          = s.phases.countP (fun p => decide (p = FramePhase.issued)) + 1 :=
        countP_set_balance (fun p => decide (p = FramePhase.issued))
          s.phases i FramePhase.locked FramePhase.issued hp
      show s.unobserved + 1
        = (s.phases.set i FramePhase.issued).countP (fun p => decide (p = FramePhase.issued))
      omega
  | complete i hp =>
      have hb : (s.phases.set i FramePhase.completed).countP
            (fun p => decide (p = FramePhase.issued)) + 1
          = s.phases.countP (fun p => decide (p = FramePhase.issued)) :=
        countP_set_balance (fun p => decide (p = FramePhase.issued))
          s.phases i FramePhase.issued FramePhase.completed hp
      show s.unobserved - 1
        = (s.phases.set i FramePhase.completed).countP (fun p => decide (p = FramePhase.issued))
      omega
  | release i hp ho =>
      have hb : (s.phases.set i FramePhase.done).countP
            (fun p => decide (p = FramePhase.issued))
          = s.phases.countP (fun p => decide (p = FramePhase.issued)) :=
        countP_set_balance (fun p => decide (p = FramePhase.issued))
          s.phases i FramePhase.completed FramePhase.done hp
      show s.unobserved
        = (s.phases.set i FramePhase.done).countP (fun p => decide (p = FramePhase.issued))
      omega

theorem frameLockCounts_reachable {n : Nat} {s : FrameLockState}
    (h : Relation.ReflTransGen FrameLockNormalStep (FrameLockState.init n) s) :
    FrameLockCounts s := by
  induction h with
  | refl => exact frameLockCounts_init n
  | tail _ hbc ih => exact frameLockCounts_normal_step ih hbc

/-- Claim C1 counterexample: caller 0 acquires the send lock and invokes
the native send, and its wait fails or is cancelled — the unwinding exit of
lines 221 / 226-230, after which the spec's waiter contract gives no
guarantee the native operation was aborted — so the lock frees with the
completion never observed; caller 1 then acquires the lock and invokes the
native send again.  The resulting reachable state carries two invocations
whose matching write-complete completions were never observed, refuting the
claim that the native send primitive is never invoked a second time before
the prior invocation's matching completion has been observed. -/
theorem abandoned_wait_single_flight_counterexample :
    Relation.ReflTransGen FrameLockStep (FrameLockState.init 2)
      ⟨some 1, [FramePhase.done, FramePhase.issued], 2⟩ ∧
    (⟨some 1, [FramePhase.done, FramePhase.issued], 2⟩ : FrameLockState).unobserved = 2 ∧
    ¬ ((⟨some 1, [FramePhase.done, FramePhase.issued], 2⟩ : FrameLockState).unobserved ≤ 1) := by
  refine ⟨?_, rfl, by decide⟩
  have s1 : FrameLockStep (FrameLockState.init 2)
      ⟨some 0, [FramePhase.locked, FramePhase.idle], 0⟩ :=
    FrameLockStep.acquire (FrameLockState.init 2) 0 rfl rfl
  have s2 : FrameLockStep ⟨some 0, [FramePhase.locked, FramePhase.idle], 0⟩
      ⟨some 0, [FramePhase.issued, FramePhase.idle], 1⟩ :=
    FrameLockStep.issue ⟨some 0, [FramePhase.locked, FramePhase.idle], 0⟩ 0 rfl
  have s3 : FrameLockStep ⟨some 0, [FramePhase.issued, FramePhase.idle], 1⟩
      ⟨none, [FramePhase.done, FramePhase.idle], 1⟩ :=
    FrameLockStep.abort ⟨some 0, [FramePhase.issued, FramePhase.idle], 1⟩ 0 rfl rfl
  have s4 : FrameLockStep ⟨none, [FramePhase.done, FramePhase.idle], 1⟩
      ⟨some 1, [FramePhase.done, FramePhase.locked], 1⟩ :=
    FrameLockStep.acquire ⟨none, [FramePhase.done, FramePhase.idle], 1⟩ 1 rfl rfl
  have s5 : FrameLockStep ⟨some 1, [FramePhase.done, FramePhase.locked], 1⟩
      ⟨some 1, [FramePhase.done, FramePhase.issued], 2⟩ :=
    FrameLockStep.issue ⟨some 1, [FramePhase.done, FramePhase.locked], 1⟩ 1 rfl
  exact Relation.ReflTransGen.tail (Relation.ReflTransGen.tail (Relation.ReflTransGen.tail
    (Relation.ReflTransGen.tail (Relation.ReflTransGen.tail Relation.ReflTransGen.refl s1)
      s2) s3) s4) s5

/-- Claim C1 (amended): the send lock guarantees that at most one caller at
a time is between invoking the native send primitive and observing or
abandoning its completion, so the primitive is never invoked while another
caller is still blocked waiting on its own invocation; and in executions in
which every native call succeeds and every wait resolves to its completion
(no unwinding exits), at most one invocation is ever unobserved — the
originally claimed single-flight bound.  After an unwinding exit (failed
native call, failed or cancelled wait) the lock frees with the invocation
still unobserved and the bound can fail.  `FrameLockStep` equally models
`NativeReceiveFrame`'s critical section under the independent receive lock,
so both statements hold for receives as well. -/
theorem send_lock_exclusion_single_flight :
    (∀ n s, Relation.ReflTransGen FrameLockStep (FrameLockState.init n) s →
      inFlightCount s ≤ 1) ∧
    (∀ n s, Relation.ReflTransGen FrameLockNormalStep (FrameLockState.init n) s →
      s.unobserved ≤ 1) := by
  have hmain : ∀ n s, Relation.ReflTransGen FrameLockStep (FrameLockState.init n) s →
      inFlightCount s ≤ 1 := by
    intro n s h
    have hinv := frameLockInv_reachable h
    unfold inFlightCount
    apply countP_issued_le_one
    intro i j hi hj
    have h1 := hinv i FramePhase.issued hi rfl
    have h2 := hinv j FramePhase.issued hj rfl
    rw [h1] at h2
    exact Option.some.inj h2
  refine ⟨hmain, ?_⟩
  intro n s h
  have hcount : s.unobserved
      = s.phases.countP (fun p => decide (p = FramePhase.issued)) :=
    frameLockCounts_reachable h
  have hle := hmain n s (frameLockNormal_reachable_toStep h)
  unfold inFlightCount at hle
  omega

/-- Witness for C1 (amended): a concrete two-caller state with one send
invocation in flight, reached under the full protocol and under the
abort-free protocol, with both bounds discharged. -/
theorem send_lock_exclusion_single_flight_witness :
    inFlightCount ⟨some 0, [FramePhase.issued, FramePhase.idle], 1⟩ ≤ 1 ∧
    (⟨some 0, [FramePhase.issued, FramePhase.idle], 1⟩ : FrameLockState).unobserved ≤ 1 := by
  constructor
  · apply send_lock_exclusion_single_flight.1 2
    have s1 : FrameLockStep (FrameLockState.init 2)
        ⟨some 0, [FramePhase.locked, FramePhase.idle], 0⟩ :=
      FrameLockStep.acquire (FrameLockState.init 2) 0 rfl rfl
    have s2 : FrameLockStep ⟨some 0, [FramePhase.locked, FramePhase.idle], 0⟩
        ⟨some 0, [FramePhase.issued, FramePhase.idle], 1⟩ :=
      FrameLockStep.issue ⟨some 0, [FramePhase.locked, FramePhase.idle], 0⟩ 0 rfl
    exact Relation.ReflTransGen.tail
      (Relation.ReflTransGen.tail Relation.ReflTransGen.refl s1) s2
  · apply send_lock_exclusion_single_flight.2 2
    have s1 : FrameLockNormalStep (FrameLockState.init 2)
        ⟨some 0, [FramePhase.locked, FramePhase.idle], 0⟩ :=
      FrameLockNormalStep.acquire (FrameLockState.init 2) 0 rfl rfl
    have s2 : FrameLockNormalStep ⟨some 0, [FramePhase.locked, FramePhase.idle], 0⟩
        ⟨some 0, [FramePhase.issued, FramePhase.idle], 1⟩ :=
      FrameLockNormalStep.issue ⟨some 0, [FramePhase.locked, FramePhase.idle], 0⟩ 0 rfl
    exact Relation.ReflTransGen.tail
      (Relation.ReflTransGen.tail Relation.ReflTransGen.refl s1) s2

/-! ## Trace shapes of the send and receive paths -/

theorem NativeSendFrame_trace (self : WinHttpWebSocketTransport) (action : WinHttpAction)
    (env : NativeEnv) (frameType : NativeWebSocketFrameType) (frameData : List Nat)
    (ctx : Context) (bt : Nat) (hbt : sendBufferType frameType = some bt) :
    (NativeSendFrame self action env frameType frameData ctx).2 =
      [Event.acquireSendMutex,
       Event.callWebSocketSend self.m_socketHandle bt frameData.length,
       Event.releaseSendMutex] := by
  unfold NativeSendFrame
  split
  · rename_i heq
    rw [hbt] at heq
    exact Option.noConfusion heq
  · rename_i bufferType heq
    rw [hbt] at heq
    injection heq with hbt2
    subst hbt2
    split
    · rfl
    · split <;> rfl

theorem NativeReceiveFrame_trace (self : WinHttpWebSocketTransport)
    (action : WinHttpAction) (env : NativeEnv) (ctx : Context) :
    (NativeReceiveFrame self action env ctx).2 =
      [Event.acquireReceiveMutex,
       Event.callWebSocketReceive self.m_socketHandle 128,
       Event.releaseReceiveMutex] := by
  unfold NativeReceiveFrame
  split
  · rfl
  · split
    · rfl
    · split <;> rfl

/-! ## State gating of Send and Receive (C2) -/

/-- Claim C2 counterexample: with the socket handle released (transport not
in the Open state), `NativeSendFrame(Text, 1 byte)` does not fail with a
programmer-error fault — in a cooperative environment it returns success —
and it does issue a native send call (on the null handle).  The state gate
the claim asserts does not exist in `NativeSendFrame` or
`NativeReceiveFrame`. -/
theorem no_open_state_gate_counterexample :
    (NativeSendFrame closedTransport okAction okEnv .Text [1] liveContext).1 = .ok () ∧
    Event.callWebSocketSend false WINHTTP_WEB_SOCKET_UTF8_MESSAGE_BUFFER_TYPE 1
      ∈ (NativeSendFrame closedTransport okAction okEnv .Text [1] liveContext).2 := by
  constructor
  · rfl
  · decide

/-- Claim C2 (amended): `NativeSendFrame` and `NativeReceiveFrame` perform
no Open-state check.  Invoked while the socket handle is absent (before a
successful upgrade, or after `Close` has released it) — with a recognized
frame type, in the send case — they still acquire their mutex and issue the
native call on the null handle instead of failing fast with a
programmer-error fault and zero native calls. -/
theorem send_receive_no_open_state_gate (self : WinHttpWebSocketTransport)
    (action : WinHttpAction) (env : NativeEnv) (frameData : List Nat)
    (ctx : Context) (frameType : NativeWebSocketFrameType) (bt : Nat)
    (hclosed : self.m_socketHandle = false)
    (hbt : sendBufferType frameType = some bt) :
    Event.acquireSendMutex ∈ (NativeSendFrame self action env frameType frameData ctx).2 ∧
    Event.callWebSocketSend false bt frameData.length
      ∈ (NativeSendFrame self action env frameType frameData ctx).2 ∧
    Event.acquireReceiveMutex ∈ (NativeReceiveFrame self action env ctx).2 ∧
    Event.callWebSocketReceive false 128 ∈ (NativeReceiveFrame self action env ctx).2 := by
  rw [NativeSendFrame_trace self action env frameType frameData ctx bt hbt,
    NativeReceiveFrame_trace self action env ctx, hclosed]
  refine ⟨?_, ?_, ?_, ?_⟩ <;> simp

/-- Witness for C2 (amended): a closed transport still acquires the locks
and issues the native send and receive calls on the null handle. -/
theorem send_receive_no_open_state_gate_witness :
    Event.acquireSendMutex
      ∈ (NativeSendFrame closedTransport okAction okEnv .Text [1] liveContext).2 ∧
    Event.callWebSocketSend false WINHTTP_WEB_SOCKET_UTF8_MESSAGE_BUFFER_TYPE 1
      ∈ (NativeSendFrame closedTransport okAction okEnv .Text [1] liveContext).2 ∧
    Event.acquireReceiveMutex
      ∈ (NativeReceiveFrame closedTransport okAction okEnv liveContext).2 ∧
    Event.callWebSocketReceive false 128
      ∈ (NativeReceiveFrame closedTransport okAction okEnv liveContext).2 :=
  send_receive_no_open_state_gate closedTransport okAction okEnv [1] liveContext .Text
    WINHTTP_WEB_SOCKET_UTF8_MESSAGE_BUFFER_TYPE rfl rfl

/-! ## Fail-fast on unknown send frame types (C9) -/

/-- Claim C9: a frame type outside the recognized send set (`Text`,
`Binary`, `TextFragment`, `BinaryFragment`) makes `NativeSendFrame` throw
the programmer-error `std::runtime_error` straight away, with an empty
event trace — the send lock is never acquired and no native call is
issued. -/
theorem send_unknown_frame_type_fails_fast (self : WinHttpWebSocketTransport)
    (action : WinHttpAction) (env : NativeEnv) (frameData : List Nat)
    (ctx : Context) (frameType : NativeWebSocketFrameType)
    (h : sendBufferType frameType = none) :
    NativeSendFrame self action env frameType frameData ctx =
      (.error (.runtimeError ("Unknown frame type: " ++ toString (frameTypeValue frameType))),
        []) := by
  unfold NativeSendFrame
  rw [h]

/-- Witness for C9 at the one unrecognized member of the frame-type enum. -/
theorem send_unknown_frame_type_fails_fast_witness :
    NativeSendFrame closedTransport okAction okEnv .Closed [] liveContext =
      (.error (.runtimeError ("Unknown frame type: " ++ toString (frameTypeValue .Closed))),
        []) :=
  send_unknown_frame_type_fails_fast closedTransport okAction okEnv [] liveContext .Closed rfl

/-! ## Idempotent Close (C6) -/

/-- Claim C6: `Close` is idempotent — a first `Close` on an open transport
performs the native handle release exactly once; a second `Close` performs
no native operation and leaves the state unchanged; `Close` on a
never-opened (or already closed) transport is a no-op. -/
theorem close_idempotent (self : WinHttpWebSocketTransport) :
    (Close (Close self).1).2 = [] ∧
    (Close (Close self).1).1 = (Close self).1 ∧
    ((Close self).2 ++ (Close (Close self).1).2).countP Event.isCloseHandle
      = (if self.m_socketHandle then 1 else 0) ∧
    Close ⟨false⟩ = (⟨false⟩, []) := by
  rcases self with ⟨b⟩
  cases b <;> decide

/-! ## Receive: trimming, frame-kind mapping, buffer-too-small (C7, C8) -/

theorem listResize_length (l : List Nat) (n : Nat) : (listResize l n).length = n := by
  unfold listResize
  split
  · rw [List.length_take]
    omega
  · rw [List.length_append, List.length_replicate]
    omega

theorem NativeReceiveFrame_ok (self : WinHttpWebSocketTransport) (action : WinHttpAction)
    (env : NativeEnv) (ctx : Context)
    (hres : env.receiveResult = 0 ∨ env.receiveResult = ERROR_INSUFFICIENT_BUFFER)
    (hw : action.waitResolves WINHTTP_CALLBACK_STATUS_READ_COMPLETE = true) :
    (NativeReceiveFrame self action env ctx).1 =
      match receiveFrameType (action.statusBufferType WINHTTP_CALLBACK_STATUS_READ_COMPLETE) with
      | some ft =>
          .ok ⟨ft, listResize (writeInto (List.replicate 128 0) env.receiveBytes)
              (action.statusBytesTransferred WINHTTP_CALLBACK_STATUS_READ_COMPLETE)⟩
      | none =>
          .error (.runtimeError ("Unknown frame type: " ++ toString env.receiveOutBufferType)) := by
  unfold NativeReceiveFrame
  have hc : ¬(env.receiveResult ≠ 0 ∧ env.receiveResult ≠ ERROR_INSUFFICIENT_BUFFER) := by
    rcases hres with h | h <;> simp [h]
  rw [if_neg hc, hw, if_neg (show ¬(true = false) by decide)]
  split <;> rfl

/-- Claim C7: for every receive whose wait resolves to completion, the
returned payload is the 128-byte scratch buffer trimmed (resized) to exactly
the reported transferred-byte count — never the full buffer — and the frame
type is the five-way mapping of the reported native buffer kind
(UTF8-message to Text, binary-message to Binary, binary-fragment to
BinaryFragment, UTF8-fragment to TextFragment, close-buffer to Closed); an
unrecognized reported kind raises the unexpected-protocol
`std::runtime_error`. -/
theorem receive_trims_and_maps (self : WinHttpWebSocketTransport)
    (action : WinHttpAction) (env : NativeEnv) (ctx : Context)
    (hres : env.receiveResult = 0 ∨ env.receiveResult = ERROR_INSUFFICIENT_BUFFER)
    (hw : action.waitResolves WINHTTP_CALLBACK_STATUS_READ_COMPLETE = true) :
    (∀ ft, receiveFrameType (action.statusBufferType WINHTTP_CALLBACK_STATUS_READ_COMPLETE)
        = some ft →
      (NativeReceiveFrame self action env ctx).1 =
        .ok ⟨ft, listResize (writeInto (List.replicate 128 0) env.receiveBytes)
            (action.statusBytesTransferred WINHTTP_CALLBACK_STATUS_READ_COMPLETE)⟩) ∧
    (∀ frame, (NativeReceiveFrame self action env ctx).1 = .ok frame →
      frame.frameData.length
        = action.statusBytesTransferred WINHTTP_CALLBACK_STATUS_READ_COMPLETE) ∧
    (receiveFrameType (action.statusBufferType WINHTTP_CALLBACK_STATUS_READ_COMPLETE) = none →
      (NativeReceiveFrame self action env ctx).1 =
        .error (.runtimeError ("Unknown frame type: " ++ toString env.receiveOutBufferType))) ∧
    receiveFrameType WINHTTP_WEB_SOCKET_UTF8_MESSAGE_BUFFER_TYPE = some .Text ∧
    receiveFrameType WINHTTP_WEB_SOCKET_BINARY_MESSAGE_BUFFER_TYPE = some .Binary ∧
    receiveFrameType WINHTTP_WEB_SOCKET_BINARY_FRAGMENT_BUFFER_TYPE = some .BinaryFragment ∧
    receiveFrameType WINHTTP_WEB_SOCKET_UTF8_FRAGMENT_BUFFER_TYPE = some .TextFragment ∧
    receiveFrameType WINHTTP_WEB_SOCKET_CLOSE_BUFFER_TYPE = some .Closed := by
  have hchar := NativeReceiveFrame_ok self action env ctx hres hw
  refine ⟨?_, ?_, ?_, by decide, by decide, by decide, by decide, by decide⟩
  · intro ft hft
    rw [hchar, hft]
  · intro frame hframe
    rw [hchar] at hframe
    cases hmatch : receiveFrameType
        (action.statusBufferType WINHTTP_CALLBACK_STATUS_READ_COMPLETE) with
    | none =>
        rw [hmatch] at hframe
        exact Except.noConfusion hframe
    | some ft =>
        rw [hmatch] at hframe
        injection hframe with hfr
        rw [← hfr]
        exact listResize_length _ _
  · intro hnone
    rw [hchar, hnone]

set_option maxRecDepth 4000 in
/-- Witness for C7: a completion reporting 5 bytes transferred of
binary-message kind, into the 128-byte scratch buffer that received the
bytes 9 9 9 9 9 1 2, yields a Binary frame with the 5-byte payload
9 9 9 9 9 — not 128 bytes. -/
theorem receive_trims_and_maps_witness :
    (NativeReceiveFrame openTransport truncAction receiveEnv liveContext).1
      = .ok ⟨.Binary, [9, 9, 9, 9, 9]⟩ :=
  (receive_trims_and_maps openTransport truncAction receiveEnv liveContext
    (Or.inl rfl) rfl).1 .Binary rfl

/-- Claim C8: an `ERROR_INSUFFICIENT_BUFFER` ("buffer too small") result
from issuing `WinHttpWebSocketReceive` is not treated as a fault — the call
behaves exactly as if the native result were 0, still waiting for and
interpreting the read-complete completion — while any other non-zero native
result from issuing the receive is raised as a fault. -/
theorem receive_insufficient_buffer_not_fault (self : WinHttpWebSocketTransport)
    (action : WinHttpAction) (env : NativeEnv) (ctx : Context) :
    (NativeReceiveFrame self action { env with receiveResult := ERROR_INSUFFICIENT_BUFFER } ctx
      = NativeReceiveFrame self action { env with receiveResult := 0 } ctx) ∧
    (∀ e, e ≠ 0 → e ≠ ERROR_INSUFFICIENT_BUFFER →
      (NativeReceiveFrame self action { env with receiveResult := e } ctx).1
        = .error (.transportException "WinHttpWebSocketReceive() failed" e)) := by
  constructor
  · unfold NativeReceiveFrame
    simp [ERROR_INSUFFICIENT_BUFFER]
  · intro e he0 heib
    unfold NativeReceiveFrame
    rw [if_pos (by exact ⟨he0, heib⟩)]

/-- Witness for C8: native receive result 5 (neither 0 nor buffer-too-small)
is raised as the native fault. -/
theorem receive_insufficient_buffer_not_fault_witness :
    (NativeReceiveFrame openTransport okAction { okEnv with receiveResult := 5 } liveContext).1
      = .error (.transportException "WinHttpWebSocketReceive() failed" 5) :=
  (receive_insufficient_buffer_not_fault openTransport okAction okEnv liveContext).2 5
    (by decide) (by decide)

/-! ## Close handshake: echo verification, cancellation tolerance, query
placement, reason construction (C3, C4, C5, C10) -/

theorem writeInto_length (buf w : List Nat) : (writeInto buf w).length = buf.length := by
  unfold writeInto
  rw [List.length_append, List.length_take, List.length_drop]
  omega

theorem cStringOf_length_le (buf : List Nat) : (cStringOf buf).length ≤ buf.length := by
  unfold cStringOf
  induction buf with
  | nil => exact Nat.le_refl 0
  | cons a t ih =>
      rw [List.takeWhile_cons]
      split
      · exact Nat.succ_le_succ ih
      · exact Nat.zero_le _

theorem zero_not_mem_cStringOf (buf : List Nat) : (0 : Nat) ∉ cStringOf buf := by
  intro hmem
  have := List.mem_takeWhile_imp hmem
  simp at this

theorem NativeGetCloseSocketInformation_ok (self : WinHttpWebSocketTransport)
    (env : NativeEnv) (ctx : Context)
    (hctx : ctx.cancelled = false) (hq : env.queryResult = 0) :
    NativeGetCloseSocketInformation self env ctx =
      (.ok ⟨env.queryCloseStatus % 65536,
          cStringOf (writeInto (List.replicate WINHTTP_WEB_SOCKET_MAX_CLOSE_REASON_LENGTH 0)
            env.queryReasonBytes)⟩,
        [Event.callWebSocketQueryCloseStatus self.m_socketHandle]) := by
  unfold NativeGetCloseSocketInformation
  simp [hctx, hq]

theorem NativeGetCloseSocketInformation_trace (self : WinHttpWebSocketTransport)
    (env : NativeEnv) (ctx : Context) (hctx : ctx.cancelled = false) :
    (NativeGetCloseSocketInformation self env ctx).2
      = [Event.callWebSocketQueryCloseStatus self.m_socketHandle] := by
  unfold NativeGetCloseSocketInformation
  rw [hctx]
  rw [if_neg (show ¬(false = true) by decide)]
  split <;> rfl

/-- Claim C3: after the close-complete step, `NativeCloseSocket` queries
the peer's close information and succeeds when the reported close status
equals the status it sent; when they differ it raises the
protocol-violation `std::runtime_error` naming the received ("got") and the
expected status values. -/
theorem close_status_echo (self : WinHttpWebSocketTransport) (action : WinHttpAction)
    (env : NativeEnv) (status : Nat) (reason : List Nat) (ctx : Context)
    (hc : env.closeResult = 0)
    (hw : action.waitResolves WINHTTP_CALLBACK_STATUS_CLOSE_COMPLETE = true)
    (hctx : ctx.cancelled = false)
    (hq : env.queryResult = 0) :
    (env.queryCloseStatus % 65536 = status →
      (NativeCloseSocket self action env status reason ctx).1 = .ok ()) ∧
    (env.queryCloseStatus % 65536 ≠ status →
      (NativeCloseSocket self action env status reason ctx).1 =
        .error (.runtimeError ("Close status mismatch, got "
          ++ toString (env.queryCloseStatus % 65536) ++ " expected " ++ toString status))) := by
  have hchar := NativeGetCloseSocketInformation_ok self env ctx hctx hq
  unfold NativeCloseSocket
  rw [if_neg (by simp [hc]), if_neg (by simp [hw]), hchar]
  constructor
  · intro heq
    dsimp only
    rw [if_neg (by simp [heq])]
  · intro hne
    dsimp only
    rw [if_pos hne]

/-- Witness for C3: `NativeCloseSocket(1000, "", ctx)` with the peer
reporting close status 1000 succeeds; with the peer reporting 1001 it
raises the mismatch fault naming 1001 (got) and 1000 (expected). -/
theorem close_status_echo_witness :
    (NativeCloseSocket openTransport okAction echoEnv 1000 [] liveContext).1 = .ok () ∧
    (NativeCloseSocket openTransport okAction mismatchEnv 1000 [] liveContext).1 =
      .error (.runtimeError ("Close status mismatch, got "
        ++ toString (mismatchEnv.queryCloseStatus % 65536)
        ++ " expected " ++ toString (1000 : Nat))) := by
  constructor
  · exact (close_status_echo openTransport okAction echoEnv 1000 [] liveContext
      rfl rfl rfl rfl).1 rfl
  · exact (close_status_echo openTransport okAction mismatchEnv 1000 [] liveContext
      rfl rfl rfl rfl).2 (by decide)

/-- Claim C4: when the close-complete wait does not resolve, a stowed error
equal to operation-cancelled is swallowed — `NativeCloseSocket` behaves
exactly as if the wait had resolved, proceeding to the close-info query —
while any other non-zero stowed error is fatal: the native fault is raised
and the close-info query is never issued. -/
theorem close_cancel_swallowed_other_stow_fatal (self : WinHttpWebSocketTransport)
    (action : WinHttpAction) (env : NativeEnv) (status : Nat) (reason : List Nat)
    (ctx : Context) :
    (action.stowedError WINHTTP_CALLBACK_STATUS_CLOSE_COMPLETE
        = ERROR_WINHTTP_OPERATION_CANCELLED →
      NativeCloseSocket self action env status reason ctx =
        NativeCloseSocket self { action with waitResolves := fun _ => true }
          env status reason ctx) ∧
    (env.closeResult = 0 →
      action.waitResolves WINHTTP_CALLBACK_STATUS_CLOSE_COMPLETE = false →
      action.stowedError WINHTTP_CALLBACK_STATUS_CLOSE_COMPLETE ≠ 0 →
      action.stowedError WINHTTP_CALLBACK_STATUS_CLOSE_COMPLETE
          ≠ ERROR_WINHTTP_OPERATION_CANCELLED →
      (NativeCloseSocket self action env status reason ctx).1 =
        .error (.transportException "Error Closing WebSocket handle synchronously"
          (action.stowedError WINHTTP_CALLBACK_STATUS_CLOSE_COMPLETE)) ∧
      (NativeCloseSocket self action env status reason ctx).2.countP
        Event.isQueryCloseStatus = 0) := by
  constructor
  · intro hstow
    unfold NativeCloseSocket
    simp [hstow]
  · intro hc hw he0 hecanc
    unfold NativeCloseSocket
    rw [if_neg (by simp [hc]), if_pos ⟨hw, he0, hecanc⟩]
    exact ⟨rfl, by simp [Event.isQueryCloseStatus]⟩

/-- Witness for C4: a wait failing with stowed error operation-cancelled is
swallowed (the call equals the successful-wait call); a wait failing with
stowed error 12002 raises the fault and performs no close-info query. -/
theorem close_cancel_swallowed_other_stow_fatal_witness :
    (NativeCloseSocket openTransport cancelStowAction okEnv 1000 [] liveContext =
      NativeCloseSocket openTransport { cancelStowAction with waitResolves := fun _ => true }
        okEnv 1000 [] liveContext) ∧
    ((NativeCloseSocket openTransport fatalStowAction okEnv 1000 [] liveContext).1 =
      .error (.transportException "Error Closing WebSocket handle synchronously" 12002) ∧
    (NativeCloseSocket openTransport fatalStowAction okEnv 1000 [] liveContext).2.countP
      Event.isQueryCloseStatus = 0) := by
  constructor
  · exact (close_cancel_swallowed_other_stow_fatal openTransport cancelStowAction okEnv
      1000 [] liveContext).1 rfl
  · exact (close_cancel_swallowed_other_stow_fatal openTransport fatalStowAction okEnv
      1000 [] liveContext).2 rfl rfl (by decide) (by decide)

/-- Claim C5 counterexample: a `NativeCloseSocket` call whose close-complete
wait fails with the fatal stowed error 12002 raises and never queries the
peer's close information — so not every call queries it regardless of the
close-complete step's outcome. -/
theorem close_always_queries_counterexample :
    (NativeCloseSocket openTransport fatalStowAction okEnv 1000 [] liveContext).1
      = .error (.transportException "Error Closing WebSocket handle synchronously" 12002) ∧
    (NativeCloseSocket openTransport fatalStowAction okEnv 1000 [] liveContext).2.countP
      Event.isQueryCloseStatus = 0 := by
  exact ⟨rfl, rfl⟩

/-- Claim C5 (amended): `NativeCloseSocket` queries the peer's close
information whenever the close-complete step does not raise — that is, the
native close call returned 0 and either the wait resolved or the stowed
error was 0 or operation-cancelled — issuing exactly one native
close-status query (the context not being already cancelled); a failing
native close call or a fatal stowed error raises first and skips the
query. -/
theorem close_queries_after_nonfatal_step (self : WinHttpWebSocketTransport)
    (action : WinHttpAction) (env : NativeEnv) (status : Nat) (reason : List Nat)
    (ctx : Context)
    (hc : env.closeResult = 0)
    (hctx : ctx.cancelled = false)
    (hs : action.waitResolves WINHTTP_CALLBACK_STATUS_CLOSE_COMPLETE = true
        ∨ action.stowedError WINHTTP_CALLBACK_STATUS_CLOSE_COMPLETE = 0
        ∨ action.stowedError WINHTTP_CALLBACK_STATUS_CLOSE_COMPLETE
            = ERROR_WINHTTP_OPERATION_CANCELLED) :
    (NativeCloseSocket self action env status reason ctx).2.countP
      Event.isQueryCloseStatus = 1 := by
  have htr := NativeGetCloseSocketInformation_trace self env ctx hctx
  unfold NativeCloseSocket
  rw [if_neg (by simp [hc]), if_neg (by rcases hs with h | h | h <;> simp [h])]
  rcases hget : NativeGetCloseSocketInformation self env ctx with ⟨res, t⟩
  rw [hget] at htr
  have htt : t = [Event.callWebSocketQueryCloseStatus self.m_socketHandle] := htr
  cases res with
  | error e => simp [htt, Event.isQueryCloseStatus]
  | ok ci =>
      dsimp only
      split <;> simp [htt, Event.isQueryCloseStatus]

/-- Witness for C5 (amended) at a concrete cancelled-stow close that still
queries exactly once. -/
theorem close_queries_after_nonfatal_step_witness :
    (NativeCloseSocket openTransport cancelStowAction okEnv 1000 [] liveContext).2.countP
      Event.isQueryCloseStatus = 1 :=
  close_queries_after_nonfatal_step openTransport cancelStowAction okEnv 1000 [] liveContext
    rfl rfl (Or.inr (Or.inr rfl))

set_option maxRecDepth 8000 in
/-- Claim C10: the reason in the returned close information is built from
the zero-initialized scratch buffer as a NUL-terminated C string: the call
is unchanged under any reported `closeReasonLength` value (the length count
is never read), the reason equals the buffer truncated at the first zero
byte (so an embedded zero byte shortens it and no zero byte survives into
it), and its length never exceeds the native maximum close-reason
length. -/
theorem close_reason_cstring (self : WinHttpWebSocketTransport) (env : NativeEnv)
    (ctx : Context) (hctx : ctx.cancelled = false) (hq : env.queryResult = 0) :
    (∀ n, NativeGetCloseSocketInformation self { env with queryReasonLength := n } ctx
        = NativeGetCloseSocketInformation self env ctx) ∧
    (∀ info, (NativeGetCloseSocketInformation self env ctx).1 = .ok info →
      info.Reason = cStringOf (writeInto
          (List.replicate WINHTTP_WEB_SOCKET_MAX_CLOSE_REASON_LENGTH 0)
          env.queryReasonBytes) ∧
      (0 : Nat) ∉ info.Reason ∧
      info.Reason.length ≤ WINHTTP_WEB_SOCKET_MAX_CLOSE_REASON_LENGTH) := by
  constructor
  · intro n
    rfl
  · intro info hinfo
    rw [NativeGetCloseSocketInformation_ok self env ctx hctx hq] at hinfo
    injection hinfo with hi
    rw [← hi]
    refine ⟨rfl, zero_not_mem_cStringOf _, ?_⟩
    have h1 := cStringOf_length_le
      (writeInto (List.replicate WINHTTP_WEB_SOCKET_MAX_CLOSE_REASON_LENGTH 0)
        env.queryReasonBytes)
    have h2 := writeInto_length
      (List.replicate WINHTTP_WEB_SOCKET_MAX_CLOSE_REASON_LENGTH 0) env.queryReasonBytes
    rw [List.length_replicate] at h2
    rw [h2] at h1
    exact h1

set_option maxRecDepth 8000 in
/-- Witness for C10: query reason bytes 98 121 101 0 120 (an embedded zero
after "bye") yield the reason 98 121 101 — shortened at the zero,
independent of a reported length 7, zero-free and within the maximum. -/
theorem close_reason_cstring_witness :
    (NativeGetCloseSocketInformation openTransport { echoEnv with queryReasonLength := 7 }
        liveContext
      = NativeGetCloseSocketInformation openTransport echoEnv liveContext) ∧
    (([98, 121, 101] : List Nat) = cStringOf (writeInto
        (List.replicate WINHTTP_WEB_SOCKET_MAX_CLOSE_REASON_LENGTH 0)
        echoEnv.queryReasonBytes) ∧
      (0 : Nat) ∉ ([98, 121, 101] : List Nat) ∧
      ([98, 121, 101] : List Nat).length ≤ WINHTTP_WEB_SOCKET_MAX_CLOSE_REASON_LENGTH) := by
  have h := close_reason_cstring openTransport echoEnv liveContext rfl rfl
  exact ⟨h.1 7, h.2 ⟨1000, [98, 121, 101]⟩ rfl⟩

end WinHttpWebSockets
